import Mathlib

/-!
Verification of `jstests/multiVersion/global_snapshot_reads_upgrade_cluster.js`.

The script is linear test orchestration: it probes a standalone server for
snapshot read-concern support, provisions a two-shard/two-mongos cluster at the
last-stable version, seeds fixture data, and then runs a fixed battery of
snapshot-tagged `find` commands against both routers after each upgrade phase,
asserting a phase-specific accept/reject outcome.

The embedding below keeps the script's control flow: the mutable program state
is the global `txnNumber` counter (plus instrumentation counters for session
identity and compatibility-version reads), every interaction with the external
cluster is recorded as an `Event`, and a failed assertion aborts the remainder
of the run through the `Except` component of the interpreter monad `M`.
Responses of the external cluster (admin command outcomes, find responses,
compatibility-version reads, the storage-engine probe) are supplied by an
environment `Env`, since the cluster itself is an external collaborator.
-/

namespace GlobalSnapshotReadsUpgradeCluster

/-- Error codes the script mentions (`ErrorCodes.FailedToParse`,
`ErrorCodes.InvalidOptions`, `ErrorCodes.SnapshotTooOld`); `other` stands for
any further server error code. -/
inductive ErrorCode where
  | FailedToParse
  | InvalidOptions
  | SnapshotTooOld
  | other (n : Nat)
  deriving DecidableEq

/-- Feature compatibility version markers (`lastStableFCV` and `latestFCV`). -/
inductive FCV where
  | lastStable
  | latest
  deriving DecidableEq

/-- The two mongos routers of the fixture (`st.s0` and `st.s1`; `st.s` is
`st.s0`). -/
inductive Router where
  | s0
  | s1
  deriving DecidableEq

/-- A command response: the `ok` flag and the error code attached to a failed
response, if any. -/
structure Response where
  ok : Bool
  code : Option ErrorCode
  deriving DecidableEq

/-- A snapshot-read find command as built by `verifyGlobalSnapshotReads`: the
collection name, the optional equality filter on `x`, the read-concern level
and the transaction number attached to the command. -/
structure FindCmd where
  find : String
  filter : Option Int
  readConcernLevel : String
  txnNumber : Nat
  deriving DecidableEq

/-- The administrative commands the script issues under
`assert.commandWorked`. -/
inductive AdminCmd where
  | enableSharding (db : String)
  | shardCollection (ns : String) (keyField : String)
  | split (ns : String) (middleX : Int)
  | moveChunk (ns : String) (findX : Int) (toShard : String)
  | setFeatureCompatibilityVersion (v : FCV)
  deriving DecidableEq

/-- One observable interaction of the script with the external cluster, in
program order. -/
inductive Event where
  | runMongodProbe (supports : Bool)
  | provisionCluster (shards mongos rsNodes : Nat)
  | adminCmd (cmd : AdminCmd) (ok : Bool)
  | ensurePrimaryShard (db shard : String)
  | insert (db coll : String) (docs : List Int)
  | startSession (conn : Router) (sessionId : Nat) (causalConsistency : Bool)
  | findEvt (conn : Router) (sessionId : Nat) (db : String) (cmd : FindCmd)
      (expectSuccess : Bool) (expectedCode : Option ErrorCode) (res : Response)
  | upgradeCluster (version : String)
      (upgradeConfigs upgradeMongos upgradeShards : Bool)
  | checkFCVEvt (readValue expected : FCV)
  | stopCluster
  deriving DecidableEq

/-- The mutable counters of the script: the global `txnNumber` (line 27 of the
source), plus two instrumentation counters giving fresh identities to sessions
and indexing successive compatibility-version reads. -/
structure Counters where
  txnNumber : Nat
  sessionCounter : Nat
  fcvReads : Nat
  deriving DecidableEq

/-- Result of running a script fragment: final counters, the events produced
by the fragment, and either a value or the message of the assertion that
aborted the run. -/
structure RunResult (α : Type) where
  counters : Counters
  events : List Event
  result : Except String α

/-- Interpreter monad for the script: counter-passing, event-collecting, with
assertion failures short-circuiting the rest of the run. -/
def M (α : Type) : Type := Counters → RunResult α

instance : Monad M where
  pure a := fun c => ⟨c, [], Except.ok a⟩
  bind x f := fun c =>
    match x c with
    | ⟨c1, ev1, Except.ok a⟩ =>
      match f a c1 with
      | ⟨c2, ev2, r⟩ => ⟨c2, ev1 ++ ev2, r⟩
    | ⟨c1, ev1, Except.error e⟩ => ⟨c1, ev1, Except.error e⟩

/-- Record one interaction with the external cluster. -/
def emit (e : Event) : M Unit := fun c => ⟨c, [e], Except.ok ()⟩

/-- Embed a pure assertion outcome into the run (an `Except.error` aborts the
remainder of the script, like a thrown `assert`). -/
def liftResult (r : Except String Unit) : M Unit := fun c => ⟨c, [], r⟩

/-- Translation of `conn.startSession({causalConsistency: false})` (line 62):
opens a fresh session on the given router; the session identity is the current
value of the session counter. -/
def startSession (conn : Router) (causalConsistency : Bool) : M Nat := fun c =>
  ⟨⟨c.txnNumber, c.sessionCounter + 1, c.fcvReads⟩,
   [Event.startSession conn c.sessionCounter causalConsistency],
   Except.ok c.sessionCounter⟩

/-- Translation of the post-increment `txnNumber++` used when building each
command object: yields the current counter value and increments it. -/
def postIncTxnNumber : M Nat := fun c =>
  ⟨⟨c.txnNumber + 1, c.sessionCounter, c.fcvReads⟩, [], Except.ok c.txnNumber⟩

/-- Rendering of the optional filter part of a find command, for diagnostic
messages. -/
def tojsonFilterPart : Option Int → String
  | none => ""
  | some v => "filter: \x7b x: " ++ toString v ++ " \x7d, "

/-- Rendering of a find command object, standing for the `tojson(cmdObj)` used
in the script's assertion messages. -/
def tojson (c : FindCmd) : String :=
  "\x7b find: " ++ c.find ++ ", " ++ tojsonFilterPart c.filter ++
    "readConcern: \x7b level: " ++ c.readConcernLevel ++ " \x7d, txnNumber: " ++
    toString c.txnNumber ++ " \x7d"

/-- Rendering of the expected error code for diagnostic messages (the script
passes `undefined` when `expectSuccess` is true). -/
def tojsonOptCode : Option ErrorCode → String
  | none => "undefined"
  | some ErrorCode.FailedToParse => "FailedToParse"
  | some ErrorCode.InvalidOptions => "InvalidOptions"
  | some ErrorCode.SnapshotTooOld => "SnapshotTooOld"
  | some (ErrorCode.other n) => toString n

/-- Assertion part of `runCommandAndVerifyResponse` (lines 36-55 of the
source), as a pure function of the response. If `expectSuccess` is true, the
response may be ok, or may fail with exactly `SnapshotTooOld` (`assert.eq` on
the code); otherwise the response passes `assert.commandWorked`. If
`expectSuccess` is false, the response must fail with exactly `expectedCode`.
The `assert.commandWorked` / `assert.commandFailedWithCode` helpers live in
the shell's `assert` library, outside the provided source; their exactness
(success requires `ok`, failure requires `ok` false and exactly the expected
code, mismatch throws with the provided message) is modelled from the spec. -/
def checkResponse (cmdObj : FindCmd) (expectSuccess : Bool)
    (expectedCode : Option ErrorCode) (res : Response) : Except String Unit :=
  if expectSuccess then
    if res.ok = false then
      if res.code = some ErrorCode.SnapshotTooOld then
        Except.ok ()
      else
        Except.error ("unexpected error code, cmd: " ++ tojson cmdObj)
    else
      Except.ok ()
  else
    if res.ok = false ∧ res.code = expectedCode then
      Except.ok ()
    else
      Except.error ("command did not fail with expected error code, cmd: " ++
        tojson cmdObj ++ ", expectedCode: " ++ tojsonOptCode expectedCode)

/-- Translation of `runCommandAndVerifyResponse` (lines 33-56): runs the
command on the session database — the response being supplied by the
environment — and asserts on the response. -/
def runCommandAndVerifyResponse (respond : Router → String → FindCmd → Response)
    (conn : Router) (sessionId : Nat) (dbName : String) (cmdObj : FindCmd)
    (expectSuccess : Bool) (expectedCode : Option ErrorCode) : M Unit := do
  let res := respond conn dbName cmdObj
  emit (Event.findEvt conn sessionId dbName cmdObj expectSuccess expectedCode res)
  liftResult (checkResponse cmdObj expectSuccess expectedCode res)

/-- Translation of `verifyGlobalSnapshotReads` (lines 61-93): opens a session
with causal consistency disabled and issues, in order, a find on the unsharded
collection, a find with filter `{x: 1}` on the sharded collection, and an
unfiltered find on the sharded collection, each tagged with snapshot read
concern and the next transaction number. -/
def verifyGlobalSnapshotReads (respond : Router → String → FindCmd → Response)
    (conn : Router) (expectSuccess : Bool) (expectedCode : Option ErrorCode) :
    M Unit := do
  let sessionId ← startSession conn false
  let n1 ← postIncTxnNumber
  runCommandAndVerifyResponse respond conn sessionId "unshardedDb"
    { find := "unsharded", filter := none, readConcernLevel := "snapshot",
      txnNumber := n1 }
    expectSuccess expectedCode
  let n2 ← postIncTxnNumber
  runCommandAndVerifyResponse respond conn sessionId "shardedDb"
    { find := "sharded", filter := some 1, readConcernLevel := "snapshot",
      txnNumber := n2 }
    expectSuccess expectedCode
  let n3 ← postIncTxnNumber
  runCommandAndVerifyResponse respond conn sessionId "shardedDb"
    { find := "sharded", filter := none, readConcernLevel := "snapshot",
      txnNumber := n3 }
    expectSuccess expectedCode

/-- Behaviour of the external cluster and servers during one run: whether the
probed storage engine supports snapshot read concern, whether each admin
command succeeds, the response to each find command (per router, database and
command object), and the compatibility-version marker returned by successive
reads. -/
structure Env where
  supportsSnapshotReadConcern : Bool
  adminOk : AdminCmd → Bool
  respond : Router → String → FindCmd → Response
  fcvRead : Nat → FCV

/-- Translation of `assert.commandWorked(st.s.adminCommand(...))` for the
fixture-setup and `setFeatureCompatibilityVersion` commands: records the
command and aborts the run when the environment reports failure
(`assert.commandWorked` itself is shell-library code outside the provided
source; per the spec, a failure is fatal). -/
def adminCommandAssert (env : Env) (cmd : AdminCmd) : M Unit := fun c =>
  ⟨c, [Event.adminCmd cmd (env.adminOk cmd)],
   if env.adminOk cmd = true then Except.ok ()
   else Except.error "admin command failed"⟩

/-- Modelled from the spec: `checkFCV` (from
`jstests/libs/feature_compatibility_version.js`, which is loaded by the script
but not among the provided sources) reads the cluster-wide
compatibility-version marker and asserts it equals the expected version. -/
def checkFCV (env : Env) (expected : FCV) : M Unit := fun c =>
  ⟨⟨c.txnNumber, c.sessionCounter, c.fcvReads + 1⟩,
   [Event.checkFCVEvt (env.fcvRead c.fcvReads) expected],
   if env.fcvRead c.fcvReads = expected then Except.ok ()
   else Except.error "checkFCV: feature compatibility version mismatch"⟩

/-- Translation of the main body of the script (lines 17-161): the probe and
early return, cluster provisioning and fixture setup, and the five assertion
phases interleaved with the upgrade steps. -/
def testBody (env : Env) : M Unit := do
  emit (Event.runMongodProbe env.supportsSnapshotReadConcern)
  if env.supportsSnapshotReadConcern then do
    emit (Event.provisionCluster 2 2 3)
    adminCommandAssert env (AdminCmd.enableSharding "shardedDb")
    emit (Event.ensurePrimaryShard "shardedDb" "shard0")
    adminCommandAssert env (AdminCmd.shardCollection "shardedDb.sharded" "x")
    adminCommandAssert env (AdminCmd.split "shardedDb.sharded" 0)
    adminCommandAssert env (AdminCmd.moveChunk "shardedDb.sharded" 1 "shard1")
    emit (Event.insert "unshardedDb" "unsharded" [1])
    emit (Event.insert "shardedDb" "sharded" [-1, 1])
    verifyGlobalSnapshotReads env.respond Router.s0 false
      (some ErrorCode.FailedToParse)
    verifyGlobalSnapshotReads env.respond Router.s1 false
      (some ErrorCode.FailedToParse)
    emit (Event.upgradeCluster "latest" true false false)
    verifyGlobalSnapshotReads env.respond Router.s0 false
      (some ErrorCode.FailedToParse)
    verifyGlobalSnapshotReads env.respond Router.s1 false
      (some ErrorCode.FailedToParse)
    emit (Event.upgradeCluster "latest" false false true)
    verifyGlobalSnapshotReads env.respond Router.s0 false
      (some ErrorCode.InvalidOptions)
    verifyGlobalSnapshotReads env.respond Router.s1 false
      (some ErrorCode.InvalidOptions)
    emit (Event.upgradeCluster "latest" false true false)
    checkFCV env FCV.lastStable
    verifyGlobalSnapshotReads env.respond Router.s0 true none
    verifyGlobalSnapshotReads env.respond Router.s1 true none
    adminCommandAssert env (AdminCmd.setFeatureCompatibilityVersion FCV.latest)
    checkFCV env FCV.latest
    verifyGlobalSnapshotReads env.respond Router.s0 true none
    verifyGlobalSnapshotReads env.respond Router.s1 true none
    emit Event.stopCluster
  else
    pure ()

/-- Initial counters of a run: the global `txnNumber` starts at 0. -/
def initCounters : Counters := ⟨0, 0, 0⟩

/-- One whole run of the script under a given environment. -/
def runTest (env : Env) : RunResult Unit := testBody env initCounters

/-- Events produced by one completed invocation of `verifyGlobalSnapshotReads`
on a router, starting from session counter `sid` and transaction counter
`n`. -/
def batteryEvents (respond : Router → String → FindCmd → Response)
    (conn : Router) (expectSuccess : Bool) (expectedCode : Option ErrorCode)
    (sid n : Nat) : List Event :=
  let c1 : FindCmd :=
    { find := "unsharded", filter := none, readConcernLevel := "snapshot",
      txnNumber := n }
  let c2 : FindCmd :=
    { find := "sharded", filter := some 1, readConcernLevel := "snapshot",
      txnNumber := n + 1 }
  let c3 : FindCmd :=
    { find := "sharded", filter := none, readConcernLevel := "snapshot",
      txnNumber := n + 2 }
  [Event.startSession conn sid false,
   Event.findEvt conn sid "unshardedDb" c1 expectSuccess expectedCode
     (respond conn "unshardedDb" c1),
   Event.findEvt conn sid "shardedDb" c2 expectSuccess expectedCode
     (respond conn "shardedDb" c2),
   Event.findEvt conn sid "shardedDb" c3 expectSuccess expectedCode
     (respond conn "shardedDb" c3)]

/-- Whether the assertion attached to an event passed: admin commands must
report ok, find responses must pass `checkResponse`, compatibility-version
reads must equal the expected marker; other events carry no assertion. -/
def eventCheckOK : Event → Bool
  | Event.adminCmd _ ok => ok
  | Event.findEvt _ _ _ cmd expectSuccess expectedCode res =>
    match checkResponse cmd expectSuccess expectedCode res with
    | Except.ok _ => true
    | Except.error _ => false
  | Event.checkFCVEvt readValue expected => decide (readValue = expected)
  | _ => true

/-- The full event trace of a completed run: setup, then ten batteries (two
routers in each of the five phases) interleaved with the three upgrade steps,
the two compatibility-version checks and the compatibility bump. -/
def fullTrace (env : Env) : List Event :=
  [Event.runMongodProbe true,
   Event.provisionCluster 2 2 3,
   Event.adminCmd (AdminCmd.enableSharding "shardedDb") true,
   Event.ensurePrimaryShard "shardedDb" "shard0",
   Event.adminCmd (AdminCmd.shardCollection "shardedDb.sharded" "x") true,
   Event.adminCmd (AdminCmd.split "shardedDb.sharded" 0) true,
   Event.adminCmd (AdminCmd.moveChunk "shardedDb.sharded" 1 "shard1") true,
   Event.insert "unshardedDb" "unsharded" [1],
   Event.insert "shardedDb" "sharded" [-1, 1]]
  ++ batteryEvents env.respond Router.s0 false (some ErrorCode.FailedToParse) 0 0
  ++ batteryEvents env.respond Router.s1 false (some ErrorCode.FailedToParse) 1 3
  ++ [Event.upgradeCluster "latest" true false false]
  ++ batteryEvents env.respond Router.s0 false (some ErrorCode.FailedToParse) 2 6
  ++ batteryEvents env.respond Router.s1 false (some ErrorCode.FailedToParse) 3 9
  ++ [Event.upgradeCluster "latest" false false true]
  ++ batteryEvents env.respond Router.s0 false (some ErrorCode.InvalidOptions) 4 12
  ++ batteryEvents env.respond Router.s1 false (some ErrorCode.InvalidOptions) 5 15
  ++ [Event.upgradeCluster "latest" false true false,
      Event.checkFCVEvt FCV.lastStable FCV.lastStable]
  ++ batteryEvents env.respond Router.s0 true none 6 18
  ++ batteryEvents env.respond Router.s1 true none 7 21
  ++ [Event.adminCmd (AdminCmd.setFeatureCompatibilityVersion FCV.latest) true,
      Event.checkFCVEvt FCV.latest FCV.latest]
  ++ batteryEvents env.respond Router.s0 true none 8 24
  ++ batteryEvents env.respond Router.s1 true none 9 27
  ++ [Event.stopCluster]

/-- Expectation parameters designated for a find command issued after
`upgradesSeen` upgrade steps: before any shard or router upgrade the command
must be checked as a rejection with `FailedToParse`; after the shard upgrade
but before the router upgrade, as a rejection with `InvalidOptions`. -/
def phaseExpectation (upgradesSeen : Nat) (expectSuccess : Bool)
    (expectedCode : Option ErrorCode) : Bool :=
  if upgradesSeen ≤ 1 then
    decide (expectSuccess = false ∧ expectedCode = some ErrorCode.FailedToParse)
  else if upgradesSeen = 2 then
    decide (expectSuccess = false ∧ expectedCode = some ErrorCode.InvalidOptions)
  else
    true

/-- Checks, walking a trace while counting upgrade steps, that every find
command issued before the full upgrade carries the designated rejection
parameters of its phase. -/
def preUpgradePhasesOK : Nat → List Event → Bool
  | _, [] => true
  | k, Event.upgradeCluster _ _ _ _ :: rest => preUpgradePhasesOK (k + 1) rest
  | k, Event.findEvt _ _ _ _ expectSuccess expectedCode _ :: rest =>
    phaseExpectation k expectSuccess expectedCode && preUpgradePhasesOK k rest
  | k, _ :: rest => preUpgradePhasesOK k rest

/-- Checks, walking a trace while counting upgrade steps, that every find
command issued after the third upgrade step (the router upgrade) is checked
with `expectSuccess` true and no expected error code. -/
def postUpgradePhasesOK : Nat → List Event → Bool
  | _, [] => true
  | k, Event.upgradeCluster _ _ _ _ :: rest => postUpgradePhasesOK (k + 1) rest
  | k, Event.findEvt _ _ _ _ expectSuccess expectedCode _ :: rest =>
    (if 3 ≤ k then decide (expectSuccess = true ∧ expectedCode = none) else true)
      && postUpgradePhasesOK k rest
  | k, _ :: rest => postUpgradePhasesOK k rest

/-- Transaction numbers attached to the find commands of a trace, in order. -/
def findTxnNumbers : List Event → List Nat
  | [] => []
  | Event.findEvt _ _ _ cmd _ _ _ :: rest => cmd.txnNumber :: findTxnNumbers rest
  | _ :: rest => findTxnNumbers rest

/-- Sample cluster behaviour under which every assertion of the script passes:
finds are rejected with the designated code in the three pre-upgrade phases
(distinguished by the transaction number carried by the command) and succeed
afterwards, and the compatibility-version reads return the expected
markers. -/
def goodResp (cmd : FindCmd) : Response :=
  if cmd.txnNumber < 12 then ⟨false, some ErrorCode.FailedToParse⟩
  else if cmd.txnNumber < 18 then ⟨false, some ErrorCode.InvalidOptions⟩
  else ⟨true, none⟩

/-- Sample environment under which the run completes with no assertion
failure. -/
def goodEnv : Env :=
  { supportsSnapshotReadConcern := true,
    adminOk := fun _ => true,
    respond := fun _ _ cmd => goodResp cmd,
    fcvRead := fun i => if i = 0 then FCV.lastStable else FCV.latest }

/-- Sample environment whose storage engine does not support snapshot read
concern. -/
def skipEnv : Env :=
  { supportsSnapshotReadConcern := false,
    adminOk := fun _ => true,
    respond := fun _ _ _ => ⟨true, none⟩,
    fcvRead := fun _ => FCV.lastStable }

/-! Run equations for the interpreter monad and the primitive actions. -/

theorem bind_run {α β : Type} (x : M α) (f : α → M β) (c : Counters) :
    (x >>= f) c =
      match x c with
      | ⟨c1, ev1, Except.ok a⟩ =>
        match f a c1 with
        | ⟨c2, ev2, r⟩ => ⟨c2, ev1 ++ ev2, r⟩
      | ⟨c1, ev1, Except.error e⟩ => ⟨c1, ev1, Except.error e⟩ := rfl

theorem pure_run {α : Type} (a : α) (c : Counters) :
    (pure a : M α) c = ⟨c, [], Except.ok a⟩ := rfl

theorem emit_run (e : Event) (c : Counters) :
    emit e c = ⟨c, [e], Except.ok ()⟩ := rfl

theorem liftResult_run (r : Except String Unit) (c : Counters) :
    liftResult r c = ⟨c, [], r⟩ := rfl

theorem startSession_run (conn : Router) (b : Bool) (tn sc fr : Nat) :
    startSession conn b ⟨tn, sc, fr⟩ =
      ⟨⟨tn, sc + 1, fr⟩, [Event.startSession conn sc b], Except.ok sc⟩ := rfl

theorem postIncTxnNumber_run (tn sc fr : Nat) :
    postIncTxnNumber ⟨tn, sc, fr⟩ =
      ⟨⟨tn + 1, sc, fr⟩, [], Except.ok tn⟩ := rfl

theorem adminCommandAssert_run_ok {env : Env} {cmd : AdminCmd}
    (h : env.adminOk cmd = true) (c : Counters) :
    adminCommandAssert env cmd c =
      ⟨c, [Event.adminCmd cmd true], Except.ok ()⟩ := by
  simp [adminCommandAssert, h]

theorem adminCommandAssert_run_err {env : Env} {cmd : AdminCmd}
    (h : env.adminOk cmd = false) (c : Counters) :
    adminCommandAssert env cmd c =
      ⟨c, [Event.adminCmd cmd false], Except.error "admin command failed"⟩ := by
  simp [adminCommandAssert, h]

theorem checkFCV_run_ok {env : Env} {expected : FCV} {fr : Nat}
    (h : env.fcvRead fr = expected) (tn sc : Nat) :
    checkFCV env expected ⟨tn, sc, fr⟩ =
      ⟨⟨tn, sc, fr + 1⟩, [Event.checkFCVEvt expected expected], Except.ok ()⟩ := by
  simp [checkFCV, h]

theorem checkFCV_run_err {env : Env} {expected : FCV} {fr : Nat}
    (h : ¬ env.fcvRead fr = expected) (tn sc : Nat) :
    checkFCV env expected ⟨tn, sc, fr⟩ =
      ⟨⟨tn, sc, fr + 1⟩, [Event.checkFCVEvt (env.fcvRead fr) expected],
       Except.error "checkFCV: feature compatibility version mismatch"⟩ := by
  simp [checkFCV, h]

/-- Case analysis on one invocation of `verifyGlobalSnapshotReads`: either all
three response assertions pass — and then the battery contributes exactly its
four events, increments the transaction counter by three and the session
counter by one — or some assertion fails and the invocation ends in an
error. -/
theorem verifyGlobalSnapshotReads_cases
    (respond : Router → String → FindCmd → Response) (conn : Router)
    (es : Bool) (ec : Option ErrorCode) (tn sc fr : Nat) :
    (verifyGlobalSnapshotReads respond conn es ec ⟨tn, sc, fr⟩ =
        ⟨⟨tn + 3, sc + 1, fr⟩, batteryEvents respond conn es ec sc tn,
         Except.ok ()⟩
      ∧ (batteryEvents respond conn es ec sc tn).all eventCheckOK = true)
    ∨ (∃ cf ev m, verifyGlobalSnapshotReads respond conn es ec ⟨tn, sc, fr⟩ =
        ⟨cf, ev, Except.error m⟩) := by
  rcases h1 : checkResponse
      ⟨"unsharded", none, "snapshot", tn⟩ es ec
      (respond conn "unshardedDb" ⟨"unsharded", none, "snapshot", tn⟩)
    with m1 | u1
  · refine Or.inr ⟨⟨tn + 1, sc + 1, fr⟩,
      [Event.startSession conn sc false,
       Event.findEvt conn sc "unshardedDb" ⟨"unsharded", none, "snapshot", tn⟩
         es ec (respond conn "unshardedDb" ⟨"unsharded", none, "snapshot", tn⟩)],
      m1, ?_⟩
    simp [verifyGlobalSnapshotReads, runCommandAndVerifyResponse, bind_run,
      startSession_run, postIncTxnNumber_run, emit_run, liftResult_run, h1]
  · rcases h2 : checkResponse
        ⟨"sharded", some 1, "snapshot", tn + 1⟩ es ec
        (respond conn "shardedDb" ⟨"sharded", some 1, "snapshot", tn + 1⟩)
      with m2 | u2
    · refine Or.inr ⟨⟨tn + 2, sc + 1, fr⟩,
        [Event.startSession conn sc false,
         Event.findEvt conn sc "unshardedDb" ⟨"unsharded", none, "snapshot", tn⟩
           es ec (respond conn "unshardedDb" ⟨"unsharded", none, "snapshot", tn⟩),
         Event.findEvt conn sc "shardedDb" ⟨"sharded", some 1, "snapshot", tn + 1⟩
           es ec (respond conn "shardedDb" ⟨"sharded", some 1, "snapshot", tn + 1⟩)],
        m2, ?_⟩
      simp [verifyGlobalSnapshotReads, runCommandAndVerifyResponse, bind_run,
        startSession_run, postIncTxnNumber_run, emit_run, liftResult_run, h1, h2]
    · rcases h3 : checkResponse
          ⟨"sharded", none, "snapshot", tn + 2⟩ es ec
          (respond conn "shardedDb" ⟨"sharded", none, "snapshot", tn + 2⟩)
        with m3 | u3
      · refine Or.inr ⟨⟨tn + 3, sc + 1, fr⟩,
          batteryEvents respond conn es ec sc tn, m3, ?_⟩
        simp [verifyGlobalSnapshotReads, runCommandAndVerifyResponse, bind_run,
          startSession_run, postIncTxnNumber_run, emit_run, liftResult_run,
          batteryEvents, h1, h2, h3]
      · refine Or.inl ⟨?_, ?_⟩
        · simp [verifyGlobalSnapshotReads, runCommandAndVerifyResponse,
            bind_run, startSession_run, postIncTxnNumber_run, emit_run,
            liftResult_run, batteryEvents, h1, h2, h3]
        · simp [batteryEvents, eventCheckOK, h1, h2, h3]

/-- When the probed storage engine does not support snapshot read concern,
the run stops right after the probe with no further interaction. -/
theorem runTest_skip (env : Env)
    (hs : env.supportsSnapshotReadConcern = false) :
    runTest env = ⟨⟨0, 0, 0⟩, [Event.runMongodProbe false], Except.ok ()⟩ := by
  simp [runTest, testBody, initCounters, bind_run, emit_run, pure_run, hs]

/-- Characterization of a completed run on a supporting storage engine: the
script performs exactly the interactions of `fullTrace`, ends with transaction
counter 30, session counter 10 and two compatibility-version reads, and every
assertion along the trace passed. -/
theorem runTest_char (env : Env)
    (hs : env.supportsSnapshotReadConcern = true)
    (h : (runTest env).result = Except.ok ()) :
    runTest env = ⟨⟨30, 10, 2⟩, fullTrace env, Except.ok ()⟩ ∧
      (fullTrace env).all eventCheckOK = true ∧
      env.fcvRead 0 = FCV.lastStable ∧ env.fcvRead 1 = FCV.latest := by
  have ha1 : env.adminOk (AdminCmd.enableSharding "shardedDb") = true := by
    by_contra hc
    rw [Bool.not_eq_true] at hc
    simp only [runTest, testBody, initCounters, bind_run, emit_run, hs,
      eq_self_iff_true, if_true, adminCommandAssert_run_err hc] at h
    exact Except.noConfusion h
  have ha2 : env.adminOk (AdminCmd.shardCollection "shardedDb.sharded" "x")
      = true := by
    by_contra hc
    rw [Bool.not_eq_true] at hc
    simp only [runTest, testBody, initCounters, bind_run, emit_run, hs,
      eq_self_iff_true, if_true, adminCommandAssert_run_ok ha1,
      adminCommandAssert_run_err hc] at h
    exact Except.noConfusion h
  have ha3 : env.adminOk (AdminCmd.split "shardedDb.sharded" 0) = true := by
    by_contra hc
    rw [Bool.not_eq_true] at hc
    simp only [runTest, testBody, initCounters, bind_run, emit_run, hs,
      eq_self_iff_true, if_true, adminCommandAssert_run_ok ha1,
      adminCommandAssert_run_ok ha2, adminCommandAssert_run_err hc] at h
    exact Except.noConfusion h
  have ha4 : env.adminOk (AdminCmd.moveChunk "shardedDb.sharded" 1 "shard1")
      = true := by
    by_contra hc
    rw [Bool.not_eq_true] at hc
    simp only [runTest, testBody, initCounters, bind_run, emit_run, hs,
      eq_self_iff_true, if_true, adminCommandAssert_run_ok ha1,
      adminCommandAssert_run_ok ha2, adminCommandAssert_run_ok ha3,
      adminCommandAssert_run_err hc] at h
    exact Except.noConfusion h
  have hb1 : verifyGlobalSnapshotReads env.respond Router.s0 false
        (some ErrorCode.FailedToParse) ⟨0, 0, 0⟩ =
        ⟨⟨3, 1, 0⟩, batteryEvents env.respond Router.s0 false
          (some ErrorCode.FailedToParse) 0 0, Except.ok ()⟩ ∧
      (batteryEvents env.respond Router.s0 false
        (some ErrorCode.FailedToParse) 0 0).all eventCheckOK = true := by
    rcases verifyGlobalSnapshotReads_cases env.respond Router.s0 false
        (some ErrorCode.FailedToParse) 0 0 0 with ⟨heq, hall⟩ | ⟨cf, ev, m, heq⟩
    · simp only [Nat.reduceAdd] at heq
      exact ⟨heq, hall⟩
    · exfalso
      simp only [runTest, testBody, initCounters, bind_run, emit_run, hs,
        eq_self_iff_true, if_true, adminCommandAssert_run_ok ha1,
        adminCommandAssert_run_ok ha2, adminCommandAssert_run_ok ha3,
        adminCommandAssert_run_ok ha4, heq] at h
      exact Except.noConfusion h
  have hb2 : verifyGlobalSnapshotReads env.respond Router.s1 false
        (some ErrorCode.FailedToParse) ⟨3, 1, 0⟩ =
        ⟨⟨6, 2, 0⟩, batteryEvents env.respond Router.s1 false
          (some ErrorCode.FailedToParse) 1 3, Except.ok ()⟩ ∧
      (batteryEvents env.respond Router.s1 false
        (some ErrorCode.FailedToParse) 1 3).all eventCheckOK = true := by
    rcases verifyGlobalSnapshotReads_cases env.respond Router.s1 false
        (some ErrorCode.FailedToParse) 3 1 0 with ⟨heq, hall⟩ | ⟨cf, ev, m, heq⟩
    · simp only [Nat.reduceAdd] at heq
      exact ⟨heq, hall⟩
    · exfalso
      simp only [runTest, testBody, initCounters, bind_run, emit_run, hs,
        eq_self_iff_true, if_true, adminCommandAssert_run_ok ha1,
        adminCommandAssert_run_ok ha2, adminCommandAssert_run_ok ha3,
        adminCommandAssert_run_ok ha4, hb1.1, heq] at h
      exact Except.noConfusion h
  have hb3 : verifyGlobalSnapshotReads env.respond Router.s0 false
        (some ErrorCode.FailedToParse) ⟨6, 2, 0⟩ =
        ⟨⟨9, 3, 0⟩, batteryEvents env.respond Router.s0 false
          (some ErrorCode.FailedToParse) 2 6, Except.ok ()⟩ ∧
      (batteryEvents env.respond Router.s0 false
        (some ErrorCode.FailedToParse) 2 6).all eventCheckOK = true := by
    rcases verifyGlobalSnapshotReads_cases env.respond Router.s0 false
        (some ErrorCode.FailedToParse) 6 2 0 with ⟨heq, hall⟩ | ⟨cf, ev, m, heq⟩
    · simp only [Nat.reduceAdd] at heq
      exact ⟨heq, hall⟩
    · exfalso
      simp only [runTest, testBody, initCounters, bind_run, emit_run, hs,
        eq_self_iff_true, if_true, adminCommandAssert_run_ok ha1,
        adminCommandAssert_run_ok ha2, adminCommandAssert_run_ok ha3,
        adminCommandAssert_run_ok ha4, hb1.1, hb2.1, heq] at h
      exact Except.noConfusion h
  have hb4 : verifyGlobalSnapshotReads env.respond Router.s1 false
        (some ErrorCode.FailedToParse) ⟨9, 3, 0⟩ =
        ⟨⟨12, 4, 0⟩, batteryEvents env.respond Router.s1 false
          (some ErrorCode.FailedToParse) 3 9, Except.ok ()⟩ ∧
      (batteryEvents env.respond Router.s1 false
        (some ErrorCode.FailedToParse) 3 9).all eventCheckOK = true := by
    rcases verifyGlobalSnapshotReads_cases env.respond Router.s1 false
        (some ErrorCode.FailedToParse) 9 3 0 with ⟨heq, hall⟩ | ⟨cf, ev, m, heq⟩
    · simp only [Nat.reduceAdd] at heq
      exact ⟨heq, hall⟩
    · exfalso
      simp only [runTest, testBody, initCounters, bind_run, emit_run, hs,
        eq_self_iff_true, if_true, adminCommandAssert_run_ok ha1,
        adminCommandAssert_run_ok ha2, adminCommandAssert_run_ok ha3,
        adminCommandAssert_run_ok ha4, hb1.1, hb2.1, hb3.1, heq] at h
      exact Except.noConfusion h
  have hb5 : verifyGlobalSnapshotReads env.respond Router.s0 false
        (some ErrorCode.InvalidOptions) ⟨12, 4, 0⟩ =
        ⟨⟨15, 5, 0⟩, batteryEvents env.respond Router.s0 false
          (some ErrorCode.InvalidOptions) 4 12, Except.ok ()⟩ ∧
      (batteryEvents env.respond Router.s0 false
        (some ErrorCode.InvalidOptions) 4 12).all eventCheckOK = true := by
    rcases verifyGlobalSnapshotReads_cases env.respond Router.s0 false
        (some ErrorCode.InvalidOptions) 12 4 0 with ⟨heq, hall⟩ | ⟨cf, ev, m, heq⟩
    · simp only [Nat.reduceAdd] at heq
      exact ⟨heq, hall⟩
    · exfalso
      simp only [runTest, testBody, initCounters, bind_run, emit_run, hs,
        eq_self_iff_true, if_true, adminCommandAssert_run_ok ha1,
        adminCommandAssert_run_ok ha2, adminCommandAssert_run_ok ha3,
        adminCommandAssert_run_ok ha4, hb1.1, hb2.1, hb3.1, hb4.1, heq] at h
      exact Except.noConfusion h
  have hb6 : verifyGlobalSnapshotReads env.respond Router.s1 false
        (some ErrorCode.InvalidOptions) ⟨15, 5, 0⟩ =
        ⟨⟨18, 6, 0⟩, batteryEvents env.respond Router.s1 false
          (some ErrorCode.InvalidOptions) 5 15, Except.ok ()⟩ ∧
      (batteryEvents env.respond Router.s1 false
        (some ErrorCode.InvalidOptions) 5 15).all eventCheckOK = true := by
    rcases verifyGlobalSnapshotReads_cases env.respond Router.s1 false
        (some ErrorCode.InvalidOptions) 15 5 0 with ⟨heq, hall⟩ | ⟨cf, ev, m, heq⟩
    · simp only [Nat.reduceAdd] at heq
      exact ⟨heq, hall⟩
    · exfalso
      simp only [runTest, testBody, initCounters, bind_run, emit_run, hs,
        eq_self_iff_true, if_true, adminCommandAssert_run_ok ha1,
        adminCommandAssert_run_ok ha2, adminCommandAssert_run_ok ha3,
        adminCommandAssert_run_ok ha4, hb1.1, hb2.1, hb3.1, hb4.1, hb5.1,
        heq] at h
      exact Except.noConfusion h
  have hf1 : env.fcvRead 0 = FCV.lastStable := by
    by_contra hc
    simp only [runTest, testBody, initCounters, bind_run, emit_run, hs,
      eq_self_iff_true, if_true, adminCommandAssert_run_ok ha1,
      adminCommandAssert_run_ok ha2, adminCommandAssert_run_ok ha3,
      adminCommandAssert_run_ok ha4, hb1.1, hb2.1, hb3.1, hb4.1, hb5.1, hb6.1,
      checkFCV_run_err hc] at h
    exact Except.noConfusion h
  have hb7 : verifyGlobalSnapshotReads env.respond Router.s0 true none
        ⟨18, 6, 1⟩ =
        ⟨⟨21, 7, 1⟩, batteryEvents env.respond Router.s0 true none 6 18,
         Except.ok ()⟩ ∧
      (batteryEvents env.respond Router.s0 true none 6 18).all eventCheckOK
        = true := by
    rcases verifyGlobalSnapshotReads_cases env.respond Router.s0 true none
        18 6 1 with ⟨heq, hall⟩ | ⟨cf, ev, m, heq⟩
    · simp only [Nat.reduceAdd] at heq
      exact ⟨heq, hall⟩
    · exfalso
      simp only [runTest, testBody, initCounters, bind_run, emit_run, hs,
        eq_self_iff_true, if_true, adminCommandAssert_run_ok ha1,
        adminCommandAssert_run_ok ha2, adminCommandAssert_run_ok ha3,
        adminCommandAssert_run_ok ha4, hb1.1, hb2.1, hb3.1, hb4.1, hb5.1,
        hb6.1, checkFCV_run_ok hf1, Nat.reduceAdd, heq] at h
      exact Except.noConfusion h
  have hb8 : verifyGlobalSnapshotReads env.respond Router.s1 true none
        ⟨21, 7, 1⟩ =
        ⟨⟨24, 8, 1⟩, batteryEvents env.respond Router.s1 true none 7 21,
         Except.ok ()⟩ ∧
      (batteryEvents env.respond Router.s1 true none 7 21).all eventCheckOK
        = true := by
    rcases verifyGlobalSnapshotReads_cases env.respond Router.s1 true none
        21 7 1 with ⟨heq, hall⟩ | ⟨cf, ev, m, heq⟩
    · simp only [Nat.reduceAdd] at heq
      exact ⟨heq, hall⟩
    · exfalso
      simp only [runTest, testBody, initCounters, bind_run, emit_run, hs,
        eq_self_iff_true, if_true, adminCommandAssert_run_ok ha1,
        adminCommandAssert_run_ok ha2, adminCommandAssert_run_ok ha3,
        adminCommandAssert_run_ok ha4, hb1.1, hb2.1, hb3.1, hb4.1, hb5.1,
        hb6.1, checkFCV_run_ok hf1, Nat.reduceAdd, hb7.1, heq] at h
      exact Except.noConfusion h
  have ha5 : env.adminOk (AdminCmd.setFeatureCompatibilityVersion FCV.latest)
      = true := by
    by_contra hc
    rw [Bool.not_eq_true] at hc
    simp only [runTest, testBody, initCounters, bind_run, emit_run, hs,
      eq_self_iff_true, if_true, adminCommandAssert_run_ok ha1,
      adminCommandAssert_run_ok ha2, adminCommandAssert_run_ok ha3,
      adminCommandAssert_run_ok ha4, hb1.1, hb2.1, hb3.1, hb4.1, hb5.1, hb6.1,
      checkFCV_run_ok hf1, Nat.reduceAdd, hb7.1, hb8.1,
      adminCommandAssert_run_err hc] at h
    exact Except.noConfusion h
  have hf2 : env.fcvRead 1 = FCV.latest := by
    by_contra hc
    simp only [runTest, testBody, initCounters, bind_run, emit_run, hs,
      eq_self_iff_true, if_true, adminCommandAssert_run_ok ha1,
      adminCommandAssert_run_ok ha2, adminCommandAssert_run_ok ha3,
      adminCommandAssert_run_ok ha4, hb1.1, hb2.1, hb3.1, hb4.1, hb5.1, hb6.1,
      checkFCV_run_ok hf1, Nat.reduceAdd, hb7.1, hb8.1,
      adminCommandAssert_run_ok ha5, checkFCV_run_err hc] at h
    exact Except.noConfusion h
  have hb9 : verifyGlobalSnapshotReads env.respond Router.s0 true none
        ⟨24, 8, 2⟩ =
        ⟨⟨27, 9, 2⟩, batteryEvents env.respond Router.s0 true none 8 24,
         Except.ok ()⟩ ∧
      (batteryEvents env.respond Router.s0 true none 8 24).all eventCheckOK
        = true := by
    rcases verifyGlobalSnapshotReads_cases env.respond Router.s0 true none
        24 8 2 with ⟨heq, hall⟩ | ⟨cf, ev, m, heq⟩
    · simp only [Nat.reduceAdd] at heq
      exact ⟨heq, hall⟩
    · exfalso
      simp only [runTest, testBody, initCounters, bind_run, emit_run, hs,
        eq_self_iff_true, if_true, adminCommandAssert_run_ok ha1,
        adminCommandAssert_run_ok ha2, adminCommandAssert_run_ok ha3,
        adminCommandAssert_run_ok ha4, hb1.1, hb2.1, hb3.1, hb4.1, hb5.1,
        hb6.1, checkFCV_run_ok hf1, Nat.reduceAdd, hb7.1, hb8.1,
        adminCommandAssert_run_ok ha5, checkFCV_run_ok hf2, heq] at h
      exact Except.noConfusion h
  have hb10 : verifyGlobalSnapshotReads env.respond Router.s1 true none
        ⟨27, 9, 2⟩ =
        ⟨⟨30, 10, 2⟩, batteryEvents env.respond Router.s1 true none 9 27,
         Except.ok ()⟩ ∧
      (batteryEvents env.respond Router.s1 true none 9 27).all eventCheckOK
        = true := by
    rcases verifyGlobalSnapshotReads_cases env.respond Router.s1 true none
        27 9 2 with ⟨heq, hall⟩ | ⟨cf, ev, m, heq⟩
    · simp only [Nat.reduceAdd] at heq
      exact ⟨heq, hall⟩
    · exfalso
      simp only [runTest, testBody, initCounters, bind_run, emit_run, hs,
        eq_self_iff_true, if_true, adminCommandAssert_run_ok ha1,
        adminCommandAssert_run_ok ha2, adminCommandAssert_run_ok ha3,
        adminCommandAssert_run_ok ha4, hb1.1, hb2.1, hb3.1, hb4.1, hb5.1,
        hb6.1, checkFCV_run_ok hf1, Nat.reduceAdd, hb7.1, hb8.1,
        adminCommandAssert_run_ok ha5, checkFCV_run_ok hf2, hb9.1, heq] at h
      exact Except.noConfusion h
  refine ⟨?_, ?_, hf1, hf2⟩
  · simp only [runTest, testBody, initCounters, bind_run, emit_run, pure_run,
      hs, eq_self_iff_true, if_true, adminCommandAssert_run_ok ha1,
      adminCommandAssert_run_ok ha2, adminCommandAssert_run_ok ha3,
      adminCommandAssert_run_ok ha4, hb1.1, hb2.1, hb3.1, hb4.1, hb5.1, hb6.1,
      checkFCV_run_ok hf1, Nat.reduceAdd, hb7.1, hb8.1,
      adminCommandAssert_run_ok ha5, checkFCV_run_ok hf2, hb9.1, hb10.1]
    simp [fullTrace, List.append_assoc]
  · simp [fullTrace, eventCheckOK, hb1.2, hb2.2, hb3.2, hb4.2, hb5.2, hb6.2,
      hb7.2, hb8.2, hb9.2, hb10.2]

/-- Semantics of the verifier in the `expectSuccess` branch: the response
passes exactly when it is ok, or when it failed with precisely the
`SnapshotTooOld` code. -/
theorem checkResponse_true_ok_iff (cmd : FindCmd) (ec : Option ErrorCode)
    (res : Response) :
    checkResponse cmd true ec res = Except.ok () ↔
      (res.ok = true ∨
        (res.ok = false ∧ res.code = some ErrorCode.SnapshotTooOld)) := by
  rcases res with ⟨ok, code⟩
  cases ok
  · by_cases hcode : code = some ErrorCode.SnapshotTooOld <;>
      simp [checkResponse, hcode]
  · simp [checkResponse]

/-- Semantics of the verifier in the `expectSuccess = false` branch: the
response passes exactly when it failed with precisely the expected code. -/
theorem checkResponse_false_ok_iff (cmd : FindCmd) (ec : Option ErrorCode)
    (res : Response) :
    checkResponse cmd false ec res = Except.ok () ↔
      (res.ok = false ∧ res.code = ec) := by
  by_cases hcond : res.ok = false ∧ res.code = ec
  · simp [checkResponse, hcond]
  · simp [checkResponse, hcond]

/-- Every failing verdict of the verifier carries a diagnostic message that
contains the rendered offending command. -/
theorem checkResponse_error_mentions_cmd (cmd : FindCmd) (es : Bool)
    (ec : Option ErrorCode) (res : Response)
    (h : checkResponse cmd es ec res ≠ Except.ok ()) :
    ∃ a b, checkResponse cmd es ec res = Except.error (a ++ tojson cmd ++ b) := by
  cases es
  · by_cases hcond : res.ok = false ∧ res.code = ec
    · exact absurd (by simp [checkResponse, hcond]) h
    · refine ⟨"command did not fail with expected error code, cmd: ",
        ", expectedCode: " ++ tojsonOptCode ec, ?_⟩
      simp [checkResponse, hcond, String.append_assoc]
  · rcases res with ⟨ok, code⟩
    cases ok
    · by_cases hcode : code = some ErrorCode.SnapshotTooOld
      · exact absurd (by simp [checkResponse, hcode]) h
      · refine ⟨"unexpected error code, cmd: ", "", ?_⟩
        simp [checkResponse, hcode, String.append_empty]
    · exact absurd (by simp [checkResponse]) h

/-- The per-event check of a find event holds exactly when its response
passed the verifier. -/
theorem eventCheckOK_find (conn : Router) (sid : Nat) (db : String)
    (cmd : FindCmd) (es : Bool) (ec : Option ErrorCode) (res : Response) :
    eventCheckOK (Event.findEvt conn sid db cmd es ec res) = true ↔
      checkResponse cmd es ec res = Except.ok () := by
  rcases hres : checkResponse cmd es ec res with m | u
  · simp [eventCheckOK, hres]
  · cases u
    simp [eventCheckOK, hres]

set_option maxHeartbeats 1000000

/-- C1: in every assertion battery run in a phase before the full upgrade,
every snapshot-tagged read command issued against either router is expected
to fail with that phase's designated error code: `FailedToParse` while zero
or one upgrade steps have happened (the OldVersion and ConfigsUpgraded
states) and `InvalidOptions` after the second upgrade step (the
ShardsUpgraded state). -/
theorem claim_C1_pre_upgrade_phase_codes (env : Env)
    (h : (runTest env).result = Except.ok ()) :
    preUpgradePhasesOK 0 (runTest env).events = true := by
  cases hs : env.supportsSnapshotReadConcern
  · rw [runTest_skip env hs]
    rfl
  · obtain ⟨heq, -, -, -⟩ := runTest_char env hs h
    rw [heq]
    simp only [fullTrace, batteryEvents, List.cons_append, List.nil_append,
      List.append_assoc]
    simp only [preUpgradePhasesOK, phaseExpectation]
    norm_num

/-- Witness for C1 at the sample environment, whose run completes. -/
theorem claim_C1_witness :
    (runTest goodEnv).result = Except.ok () ∧
      preUpgradePhasesOK 0 (runTest goodEnv).events = true :=
  ⟨rfl, claim_C1_pre_upgrade_phase_codes goodEnv rfl⟩

/-- C2: a command checked with `expectSuccess` true is accepted exactly when
it reports success or fails with exactly the `SnapshotTooOld` code — any
other failure yields a test-failing verdict — and in the trace of a completed
run every command issued after the third upgrade step (the RoutersUpgraded
and CompatibilityBumped states) is checked with `expectSuccess` true and no
expected error code. -/
theorem claim_C2_expect_success_outcomes :
    (∀ cmd ec res, checkResponse cmd true ec res = Except.ok () ↔
        (res.ok = true ∨
          (res.ok = false ∧ res.code = some ErrorCode.SnapshotTooOld)))
    ∧ ∀ env, (runTest env).result = Except.ok () →
        postUpgradePhasesOK 0 (runTest env).events = true := by
  constructor
  · exact checkResponse_true_ok_iff
  · intro env h
    cases hs : env.supportsSnapshotReadConcern
    · rw [runTest_skip env hs]
      rfl
    · obtain ⟨heq, -, -, -⟩ := runTest_char env hs h
      rw [heq]
      simp only [fullTrace, batteryEvents, List.cons_append, List.nil_append,
        List.append_assoc]
      simp only [postUpgradePhasesOK]
      norm_num

/-- Witness for C2: the trace condition holds on the completed sample run, and
a `SnapshotTooOld` failure passes an `expectSuccess` check. -/
theorem claim_C2_witness :
    (runTest goodEnv).result = Except.ok () ∧
    postUpgradePhasesOK 0 (runTest goodEnv).events = true ∧
    checkResponse ⟨"sharded", none, "snapshot", 20⟩ true none
      ⟨false, some ErrorCode.SnapshotTooOld⟩ = Except.ok () :=
  ⟨rfl, claim_C2_expect_success_outcomes.2 goodEnv rfl,
   (claim_C2_expect_success_outcomes.1 ⟨"sharded", none, "snapshot", 20⟩ none
     ⟨false, some ErrorCode.SnapshotTooOld⟩).mpr (Or.inr ⟨rfl, rfl⟩)⟩

/-- C3: a command checked with `expectSuccess` false passes exactly when it
fails with exactly the supplied expected error code; any other outcome —
success included — produces a test-failing verdict. -/
theorem claim_C3_expect_failure_exact_code :
    (∀ cmd c res, checkResponse cmd false (some c) res = Except.ok () ↔
        (res.ok = false ∧ res.code = some c))
    ∧ ∀ cmd c res, ¬(res.ok = false ∧ res.code = some c) →
        ∃ m, checkResponse cmd false (some c) res = Except.error m := by
  constructor
  · intro cmd c res
    exact checkResponse_false_ok_iff cmd (some c) res
  · intro cmd c res hne
    rcases hres : checkResponse cmd false (some c) res with m | u
    · exact ⟨m, rfl⟩
    · cases u
      exact absurd ((checkResponse_false_ok_iff cmd (some c) res).mp hres) hne

/-- Witness for C3: a response failing with the expected code passes, and a
successful response is rejected with an error. -/
theorem claim_C3_witness :
    (checkResponse ⟨"unsharded", none, "snapshot", 0⟩ false
        (some ErrorCode.FailedToParse) ⟨false, some ErrorCode.FailedToParse⟩
        = Except.ok ())
    ∧ ¬((⟨true, some ErrorCode.FailedToParse⟩ : Response).ok = false ∧
        (⟨true, some ErrorCode.FailedToParse⟩ : Response).code
          = some ErrorCode.FailedToParse)
    ∧ ∃ m, checkResponse ⟨"unsharded", none, "snapshot", 1⟩ false
        (some ErrorCode.FailedToParse) ⟨true, some ErrorCode.FailedToParse⟩
        = Except.error m :=
  ⟨(claim_C3_expect_failure_exact_code.1 _ _ _).mpr ⟨rfl, rfl⟩,
   by decide,
   claim_C3_expect_failure_exact_code.2 _ ErrorCode.FailedToParse _ (by decide)⟩

/-- C4: over a completed run the transaction numbers attached to the issued
snapshot commands are strictly increasing — so no two commands share an
identifier — and a completed battery invocation increments the transaction
counter by exactly three for its router endpoint. -/
theorem claim_C4_txn_counter_monotone :
    (∀ env, (runTest env).result = Except.ok () →
        List.Pairwise (· < ·) (findTxnNumbers (runTest env).events))
    ∧ ∀ (respond : Router → String → FindCmd → Response) conn es ec tn sc fr,
        (verifyGlobalSnapshotReads respond conn es ec ⟨tn, sc, fr⟩).result
          = Except.ok () →
        (verifyGlobalSnapshotReads respond conn es ec
          ⟨tn, sc, fr⟩).counters.txnNumber = tn + 3 := by
  constructor
  · intro env h
    cases hs : env.supportsSnapshotReadConcern
    · rw [runTest_skip env hs]
      simp [findTxnNumbers]
    · obtain ⟨heq, -, -, -⟩ := runTest_char env hs h
      rw [heq]
      simp only [fullTrace, batteryEvents, List.cons_append, List.nil_append,
        List.append_assoc]
      simp only [findTxnNumbers]
      decide
  · intro respond conn es ec tn sc fr h
    rcases verifyGlobalSnapshotReads_cases respond conn es ec tn sc fr with
      ⟨heq, -⟩ | ⟨cf, ev, m, heq⟩
    · rw [heq]
    · rw [heq] at h
      exact Except.noConfusion h

/-- Witness for C4 at the sample environment. -/
theorem claim_C4_witness :
    (runTest goodEnv).result = Except.ok ()
    ∧ List.Pairwise (· < ·) (findTxnNumbers (runTest goodEnv).events)
    ∧ (verifyGlobalSnapshotReads goodEnv.respond Router.s0 false
        (some ErrorCode.FailedToParse) ⟨0, 0, 0⟩).counters.txnNumber = 0 + 3 :=
  ⟨rfl, claim_C4_txn_counter_monotone.1 goodEnv rfl,
   claim_C4_txn_counter_monotone.2 goodEnv.respond Router.s0 false
     (some ErrorCode.FailedToParse) 0 0 0 rfl⟩

/-- C5: a completed assertion battery issues exactly three read commands in a
fixed order, all tagged with snapshot read concern and consecutive transaction
numbers: a find-all on the unsharded collection, a find with filter `x = 1` on
the sharded collection, and a find-all on the sharded collection. -/
theorem claim_C5_battery_three_commands
    (respond : Router → String → FindCmd → Response) (conn : Router)
    (es : Bool) (ec : Option ErrorCode) (tn sc fr : Nat)
    (h : (verifyGlobalSnapshotReads respond conn es ec ⟨tn, sc, fr⟩).result
      = Except.ok ()) :
    (verifyGlobalSnapshotReads respond conn es ec ⟨tn, sc, fr⟩).events =
      [Event.startSession conn sc false,
       Event.findEvt conn sc "unshardedDb"
         ⟨"unsharded", none, "snapshot", tn⟩ es ec
         (respond conn "unshardedDb" ⟨"unsharded", none, "snapshot", tn⟩),
       Event.findEvt conn sc "shardedDb"
         ⟨"sharded", some 1, "snapshot", tn + 1⟩ es ec
         (respond conn "shardedDb" ⟨"sharded", some 1, "snapshot", tn + 1⟩),
       Event.findEvt conn sc "shardedDb"
         ⟨"sharded", none, "snapshot", tn + 2⟩ es ec
         (respond conn "shardedDb" ⟨"sharded", none, "snapshot", tn + 2⟩)] := by
  rcases verifyGlobalSnapshotReads_cases respond conn es ec tn sc fr with
    ⟨heq, -⟩ | ⟨cf, ev, m, heq⟩
  · rw [heq]
    simp [batteryEvents]
  · rw [heq] at h
    exact Except.noConfusion h

/-- Witness for C5: the first battery of the sample run issues exactly the
three tagged commands. -/
theorem claim_C5_witness :
    (verifyGlobalSnapshotReads goodEnv.respond Router.s0 false
        (some ErrorCode.FailedToParse) ⟨0, 0, 0⟩).result = Except.ok ()
    ∧ (verifyGlobalSnapshotReads goodEnv.respond Router.s0 false
        (some ErrorCode.FailedToParse) ⟨0, 0, 0⟩).events =
      [Event.startSession Router.s0 0 false,
       Event.findEvt Router.s0 0 "unshardedDb"
         ⟨"unsharded", none, "snapshot", 0⟩ false (some ErrorCode.FailedToParse)
         (goodEnv.respond Router.s0 "unshardedDb"
           ⟨"unsharded", none, "snapshot", 0⟩),
       Event.findEvt Router.s0 0 "shardedDb"
         ⟨"sharded", some 1, "snapshot", 1⟩ false (some ErrorCode.FailedToParse)
         (goodEnv.respond Router.s0 "shardedDb"
           ⟨"sharded", some 1, "snapshot", 1⟩),
       Event.findEvt Router.s0 0 "shardedDb"
         ⟨"sharded", none, "snapshot", 2⟩ false (some ErrorCode.FailedToParse)
         (goodEnv.respond Router.s0 "shardedDb"
           ⟨"sharded", none, "snapshot", 2⟩)] :=
  ⟨rfl, claim_C5_battery_three_commands goodEnv.respond Router.s0 false
    (some ErrorCode.FailedToParse) 0 0 0 rfl⟩

/-- C6: any assertion mismatch produces a diagnostic naming the offending
command, and an assertion failure immediately and fatally terminates the run:
binding any continuation after a failed step leaves the failure state and
message unchanged, so nothing is retried. -/
theorem claim_C6_mismatch_fatal_diagnostic :
    (∀ cmd es ec res, checkResponse cmd es ec res ≠ Except.ok () →
        ∃ a b, checkResponse cmd es ec res
          = Except.error (a ++ tojson cmd ++ b))
    ∧ ∀ (α β : Type) (x : M α) (f : α → M β) (c cf : Counters)
        (ev : List Event) (m : String),
        x c = ⟨cf, ev, Except.error m⟩ →
        (x >>= f) c = ⟨cf, ev, Except.error m⟩ := by
  constructor
  · exact checkResponse_error_mentions_cmd
  · intro α β x f c cf ev m hx
    rw [bind_run, hx]

/-- Witness for C6: an unexpected success yields a diagnostic mentioning the
command, and a failed step short-circuits a following action. -/
theorem claim_C6_witness :
    (checkResponse ⟨"unsharded", none, "snapshot", 0⟩ false
        (some ErrorCode.FailedToParse) ⟨true, none⟩ ≠ Except.ok ())
    ∧ (∃ a b, checkResponse ⟨"unsharded", none, "snapshot", 0⟩ false
        (some ErrorCode.FailedToParse) ⟨true, none⟩
        = Except.error (a ++ tojson ⟨"unsharded", none, "snapshot", 0⟩ ++ b))
    ∧ (liftResult (Except.error "assertion failed") >>=
        fun _ => (pure () : M Unit)) ⟨0, 0, 0⟩
        = ⟨⟨0, 0, 0⟩, [], Except.error "assertion failed"⟩ :=
  ⟨by simp [checkResponse],
   claim_C6_mismatch_fatal_diagnostic.1 _ _ _ _ (by simp [checkResponse]),
   claim_C6_mismatch_fatal_diagnostic.2 Unit Unit _ _ _ _ _ _ rfl⟩

/-- C7: on a completed run the script splits the sharded collection at
`x = 0`, inserts `x = 1` into the unsharded collection and `x = -1`, `x = 1`
into the sharded one, and the first snapshot find — on the unsharded
collection, at the old version — is checked as a rejection with
`FailedToParse`; since the run completed, its response did fail with exactly
that code. -/
theorem claim_C7_old_version_scenario (env : Env)
    (h : (runTest env).result = Except.ok ())
    (hs : env.supportsSnapshotReadConcern = true) :
    (runTest env).events.take 11 =
      [Event.runMongodProbe true,
       Event.provisionCluster 2 2 3,
       Event.adminCmd (AdminCmd.enableSharding "shardedDb") true,
       Event.ensurePrimaryShard "shardedDb" "shard0",
       Event.adminCmd (AdminCmd.shardCollection "shardedDb.sharded" "x") true,
       Event.adminCmd (AdminCmd.split "shardedDb.sharded" 0) true,
       Event.adminCmd (AdminCmd.moveChunk "shardedDb.sharded" 1 "shard1") true,
       Event.insert "unshardedDb" "unsharded" [1],
       Event.insert "shardedDb" "sharded" [-1, 1],
       Event.startSession Router.s0 0 false,
       Event.findEvt Router.s0 0 "unshardedDb"
         ⟨"unsharded", none, "snapshot", 0⟩ false (some ErrorCode.FailedToParse)
         (env.respond Router.s0 "unshardedDb"
           ⟨"unsharded", none, "snapshot", 0⟩)]
    ∧ (env.respond Router.s0 "unshardedDb"
        ⟨"unsharded", none, "snapshot", 0⟩).ok = false
    ∧ (env.respond Router.s0 "unshardedDb"
        ⟨"unsharded", none, "snapshot", 0⟩).code
        = some ErrorCode.FailedToParse := by
  obtain ⟨heq, hall, -, -⟩ := runTest_char env hs h
  have hchk : checkResponse ⟨"unsharded", none, "snapshot", 0⟩ false
      (some ErrorCode.FailedToParse)
      (env.respond Router.s0 "unshardedDb" ⟨"unsharded", none, "snapshot", 0⟩)
      = Except.ok () := by
    have hmem : Event.findEvt Router.s0 0 "unshardedDb"
        ⟨"unsharded", none, "snapshot", 0⟩ false (some ErrorCode.FailedToParse)
        (env.respond Router.s0 "unshardedDb" ⟨"unsharded", none, "snapshot", 0⟩)
        ∈ fullTrace env := by
      simp [fullTrace, batteryEvents]
    exact (eventCheckOK_find _ _ _ _ _ _ _).mp (List.all_eq_true.mp hall _ hmem)
  obtain ⟨hok, hcode⟩ := (checkResponse_false_ok_iff _ _ _).mp hchk
  refine ⟨?_, hok, hcode⟩
  rw [heq]
  rfl

/-- Witness for C7 at the sample environment. -/
theorem claim_C7_witness :
    (runTest goodEnv).result = Except.ok ()
    ∧ (goodEnv.respond Router.s0 "unshardedDb"
        ⟨"unsharded", none, "snapshot", 0⟩).code
        = some ErrorCode.FailedToParse :=
  ⟨rfl, (claim_C7_old_version_scenario goodEnv rfl rfl).2.2⟩

/-- C8: a completed battery opens a fresh session on its router endpoint with
causal consistency disabled — its first interaction — the session counter
advances by one, and every find command of the battery is issued through that
session identity on that router. -/
theorem claim_C8_session_per_endpoint
    (respond : Router → String → FindCmd → Response) (conn : Router)
    (es : Bool) (ec : Option ErrorCode) (tn sc fr : Nat)
    (h : (verifyGlobalSnapshotReads respond conn es ec ⟨tn, sc, fr⟩).result
      = Except.ok ()) :
    (verifyGlobalSnapshotReads respond conn es ec ⟨tn, sc, fr⟩).events.head?
        = some (Event.startSession conn sc false)
    ∧ (verifyGlobalSnapshotReads respond conn es ec
        ⟨tn, sc, fr⟩).counters.sessionCounter = sc + 1
    ∧ ∀ e ∈ (verifyGlobalSnapshotReads respond conn es ec ⟨tn, sc, fr⟩).events,
        ∀ conn2 sid db cmd es2 ec2 res,
          e = Event.findEvt conn2 sid db cmd es2 ec2 res →
          sid = sc ∧ conn2 = conn := by
  rcases verifyGlobalSnapshotReads_cases respond conn es ec tn sc fr with
    ⟨heq, -⟩ | ⟨cf, ev, m, heq⟩
  · rw [heq]
    refine ⟨by simp [batteryEvents], rfl, ?_⟩
    intro e he conn2 sid db cmd es2 ec2 res hE
    simp [batteryEvents] at he
    rcases he with rfl | rfl | rfl | rfl
    · exact absurd hE (by simp)
    · injection hE with h1 h2 h3 h4 h5 h6 h7
      exact ⟨h2.symm, h1.symm⟩
    · injection hE with h1 h2 h3 h4 h5 h6 h7
      exact ⟨h2.symm, h1.symm⟩
    · injection hE with h1 h2 h3 h4 h5 h6 h7
      exact ⟨h2.symm, h1.symm⟩
  · rw [heq] at h
    exact Except.noConfusion h

/-- Witness for C8 on the second battery of the sample run. -/
theorem claim_C8_witness :
    (verifyGlobalSnapshotReads goodEnv.respond Router.s1 false
        (some ErrorCode.FailedToParse) ⟨3, 1, 0⟩).result = Except.ok ()
    ∧ (verifyGlobalSnapshotReads goodEnv.respond Router.s1 false
        (some ErrorCode.FailedToParse) ⟨3, 1, 0⟩).events.head?
        = some (Event.startSession Router.s1 1 false) :=
  ⟨rfl, (claim_C8_session_per_endpoint goodEnv.respond Router.s1 false
    (some ErrorCode.FailedToParse) 3 1 0 rfl).1⟩

/-- C9: when the probed storage engine does not support snapshot read
concern, the run ends right after the standalone probe with a successful
early return: no cluster is provisioned, no data is seeded and no assertion
battery runs — the whole trace is the single probe event. -/
theorem claim_C9_probe_guard_early_exit (env : Env)
    (hs : env.supportsSnapshotReadConcern = false) :
    runTest env = ⟨⟨0, 0, 0⟩, [Event.runMongodProbe false], Except.ok ()⟩ :=
  runTest_skip env hs

/-- Witness for C9 at the non-supporting sample environment. -/
theorem claim_C9_witness :
    runTest skipEnv = ⟨⟨0, 0, 0⟩, [Event.runMongodProbe false], Except.ok ()⟩ :=
  claim_C9_probe_guard_early_exit skipEnv rfl

/-- C10: on a completed run the compatibility marker read right after the
router upgrade is still the last-stable value, the two expect-success
batteries run while the marker is still old, and only then is the explicit
compatibility bump issued, after which the marker reads as the latest
value. -/
theorem claim_C10_fcv_window (env : Env)
    (h : (runTest env).result = Except.ok ())
    (hs : env.supportsSnapshotReadConcern = true) :
    env.fcvRead 0 = FCV.lastStable ∧ env.fcvRead 1 = FCV.latest ∧
    ((runTest env).events.drop 35).take 12 =
      [Event.upgradeCluster "latest" false true false,
       Event.checkFCVEvt FCV.lastStable FCV.lastStable]
      ++ batteryEvents env.respond Router.s0 true none 6 18
      ++ batteryEvents env.respond Router.s1 true none 7 21
      ++ [Event.adminCmd (AdminCmd.setFeatureCompatibilityVersion FCV.latest) true,
          Event.checkFCVEvt FCV.latest FCV.latest] := by
  obtain ⟨heq, -, hf1, hf2⟩ := runTest_char env hs h
  refine ⟨hf1, hf2, ?_⟩
  rw [heq]
  rfl

/-- Witness for C10 at the sample environment. -/
theorem claim_C10_witness :
    (runTest goodEnv).result = Except.ok ()
    ∧ goodEnv.fcvRead 0 = FCV.lastStable :=
  ⟨rfl, (claim_C10_fcv_window goodEnv rfl rfl).1⟩

end GlobalSnapshotReadsUpgradeCluster
